import Mathlib

/-!
Verification of the client-side feature-flag evaluation engine
(`src/unnamed/part_001`): the evaluation reducer, the effect runner, the
flag-bag composer and the dispatch gates of `useFlags`.

The stateful parts are embedded by explicit state passing: the module-level
cache (`ObjectMap`) and the visitor cookie (`document.cookie`) are threaded
through the reducer as a `Store`.  The generic flags type `F extends Flags`
is instantiated at a concrete closed value type (`FlagValue`), which keeps
deep equality decidable, matching the design note of the spec that deep
equality should be structural equality over a closed serializable value type.
-/

namespace HappyKit

/-- A closed JSON-like flag value: boolean, string or number
(`flags: {[string]: boolean|string|number}`). -/
inductive FlagValue where
  | boolVal (b : Bool)
  | strVal (s : String)
  | numVal (n : Int)
deriving DecidableEq

/-- Flags are a finite string-keyed map of flag values, embedded as an
association list whose first binding for a key is authoritative. -/
abbrev Flags := List (String × FlagValue)

/-- A user identity passed by the consumer (`user?: {key: string, ...}`). -/
structure FlagUser where
  key : String
deriving DecidableEq

/-- Traits are a key/value map (`traits?: {[string]: any}`). -/
abbrev Traits := List (String × FlagValue)

/-- The request body of an evaluation request, from the `Input` data model:
`{ visitorKey, user?, traits?, static }`. -/
structure RequestBody where
  visitorKey : Option String
  user : Option FlagUser
  traits : Option Traits
  static : Bool
deriving DecidableEq

/-- An evaluation input: `{ endpoint, envKey, requestBody }`.  Used as the
cache key and as the unit of staleness comparisons. -/
structure Input where
  endpoint : String
  envKey : String
  requestBody : RequestBody
deriving DecidableEq

/-- A server-assigned visitor identity (`visitor?: { key }`). -/
structure Visitor where
  key : String
deriving DecidableEq

/-- The parsed body of an evaluation response:
`{ flags, visitor?: { key } }`. -/
structure EvaluationResponseBody where
  flags : Flags
  visitor : Option Visitor
deriving DecidableEq

/-- A successful evaluation result: `{ responseBody }`. -/
structure Outcome where
  responseBody : EvaluationResponseBody
deriving DecidableEq

/-- The enumerated resolution failure kinds. -/
inductive ResolvingError where
  | responseNotOk
  | invalidResponseBody
  | networkError
deriving DecidableEq

/-- Modelled from the spec: `deepEqual` lives in `utils.ts`, which is not
part of the given sources.  Per the spec, two inputs are equal iff all
fields are deep-equal, and the design notes direct that deep equality be
structural equality over the closed `Input` value type. -/
def deepEqual (a b : Input) : Bool := decide (a = b)

/-- The comparison `deepEqual(action.input, state.pending?.input)` of the
reducer: in the source the second argument may be `undefined` (when
`pending` is null), and deep equality of an input object against
`undefined` is false. -/
def deepEqualOpt (a : Input) (b : Option Input) : Bool :=
  match b with
  | some c => deepEqual a c
  | none => false

/-- Modelled from the spec: the `ObjectMap` evaluation cache of `utils.ts`
is not part of the given sources.  Per the spec it is a mapping from
`Input` (by structural equality, not identity) to the most recent
successful `Outcome` for that exact input. -/
structure Cache where
  entries : List (Input × Outcome)
deriving DecidableEq

/-- Cache lookup by structural input equality. -/
def Cache.get (c : Cache) (input : Input) : Option Outcome :=
  (c.entries.find? fun entry => deepEqual entry.1 input).map Prod.snd

/-- Cache write: the new outcome becomes the entry for the input,
replacing any previous entry for a structurally equal input. -/
def Cache.set (c : Cache) (input : Input) (outcome : Outcome) : Cache :=
  ⟨(input, outcome) :: c.entries.filter fun entry => !(deepEqual entry.1 input)⟩

/-- Modelled from the spec: `serializeVisitorKeyCookie` lives in
`utils.ts`, which is not part of the given sources.  Per the spec the
visitor identity is persisted as a single string-valued cookie with the
fixed name `hkvk`. -/
def serializeVisitorKeyCookie (visitorKey : String) : String :=
  "hkvk=" ++ visitorKey

/-- The pending half of the reducer state:
`{ input, cachedOutcome }` for an in-flight evaluation. -/
structure Pending where
  input : Input
  cachedOutcome : Option Outcome
deriving DecidableEq

/-- The `current` half of the reducer state: either settled successfully
(`{ input, outcome }`) or settled with a failure
(`{ input, outcome: null, error, cachedOutcome }`). -/
inductive Current where
  | success (input : Input) (outcome : Outcome)
  | failure (input : Input) (error : ResolvingError) (cachedOutcome : Option Outcome)
deriving DecidableEq

/-- The input a `current` entry was settled for. -/
def Current.input : Current → Input
  | .success i _ => i
  | .failure i _ _ => i

/-- The successful outcome of a `current` entry (`current.outcome`),
null when the entry is a failure. -/
def Current.outcome : Current → Option Outcome
  | .success _ o => some o
  | .failure _ _ _ => none

/-- The reducer state: nullable `current` and nullable `pending`. -/
structure State where
  current : Option Current
  pending : Option Pending
deriving DecidableEq

/-- The reducer actions. -/
inductive Action where
  | evaluate (input : Input)
  | revalidate
  | settleSuccess (input : Input) (outcome : Outcome)
  | settleFailure (input : Input) (error : ResolvingError)
deriving DecidableEq

/-- The side-effect requests emitted by the reducer. -/
inductive Effect where
  | fetch (input : Input)
deriving DecidableEq

/-- The mutable environment the reducer touches besides its own state:
the module-level cache and the visitor cookie (`document.cookie`, holding
the last serialized cookie string written, or none). -/
structure Store where
  cache : Cache
  cookie : Option String
deriving DecidableEq

/-- The evaluation reducer, from the source.  The source reducer maps a
`[state, effects]` tuple and an action to a new tuple, mutating the
module-level cache and `document.cookie` as it goes; here those ambient
mutations are made explicit by threading a `Store`. -/
def reducer (store : Store) (tuple : State × List Effect) (action : Action) :
    Store × State × List Effect :=
  let state := tuple.1
  match action with
  | .evaluate input =>
    let cachedOutcome := store.cache.get input
    (store,
      { state with pending := some { input := input, cachedOutcome := cachedOutcome } },
      [Effect.fetch input])
  | .revalidate =>
    let latestInput : Option Input :=
      match state.pending with
      | some p => some p.input
      | none => state.current.map Current.input
    match latestInput with
    | none => (store, tuple)
    | some li =>
      let cachedOutcome := store.cache.get li
      (store,
        { state with pending := some { input := li, cachedOutcome := cachedOutcome } },
        [Effect.fetch li])
  | .settleSuccess input outcome =>
    if !(deepEqualOpt input (state.pending.map Pending.input)) then (store, tuple)
    else
      let cache1 := store.cache.set input outcome
      let cookie1 :=
        match outcome.responseBody.visitor with
        | some v => if v.key = "" then store.cookie else some (serializeVisitorKeyCookie v.key)
        | none => store.cookie
      (⟨cache1, cookie1⟩,
        { state with current := some (Current.success input outcome), pending := none },
        [])
  | .settleFailure input error =>
    if !(deepEqualOpt input (state.pending.map Pending.input)) then (store, tuple)
    else
      (store,
        { state with
            current := some (Current.failure input error (store.cache.get input)),
            pending := none },
        [])

/-- The readiness gate: `ready === undefined || ready`
(undefined counts as true). -/
def isReady : Option Bool → Bool
  | none => true
  | some b => b

/-- Checks whether an input is brand new, from the source: compared
against the pending input when one exists, else against the current
input when one exists, else new. -/
def isEmergingInput (input : Input) (state : State) : Bool :=
  match state.pending with
  | some p => !(deepEqual p.input input)
  | none =>
    match state.current with
    | some c => !(deepEqual c.input input)
    | none => true

/-- The input-driven dispatch path of `useFlags`: an `evaluate` action is
dispatched exactly when the derived input is emerging and the readiness
gate is satisfied. -/
def inputEffectDispatch (input : Input) (state : State) (ready : Option Bool) :
    Option Action :=
  if isEmergingInput input state && isReady ready then some (Action.evaluate input)
  else none

/-- The focus-regain dispatch path of `useFlags` (`handleFocus`): a
`revalidate` action is dispatched exactly when the document became
visible and the readiness gate is satisfied. -/
def focusDispatch (visible : Bool) (ready : Option Bool) : Option Action :=
  if visible && isReady ready then some Action.revalidate else none

/-- The `revalidate` handle exposed on the flag bag
(`React.useCallback(() => dispatch({ type: "revalidate" }), [dispatch])`):
it dispatches a `revalidate` action unconditionally; the source callback
does not consult `options.ready`, which is only passed here so the claim
about the gate can be stated. -/
def revalidateHandle (_ready : Option Bool) : Option Action :=
  some Action.revalidate

/-- The result of one network fetch as observed by the effect runner:
either a response arrived, with its ok-status (`response.ok`, true for
2xx) and its body parse result (`none` when `response.json()` fails),
or the transport failed and no response arrived at all. -/
inductive FetchResult where
  | response (ok : Bool) (body : Option EvaluationResponseBody)
  | transportFailure
deriving DecidableEq

/-- The effect runner's classification of one fetch result into the
single settle action it dispatches, from the source's
`.then(onFulfilled, onRejected).catch(...)` chain: a transport failure
(the fetch promise rejects) is handled by the rejection handler, which
dispatches `invalid-response-body`; a body that fails to parse makes
`await response.json()` throw inside the fulfillment handler, which is
caught by the trailing `.catch`, dispatching `network-error`; otherwise
`response.ok` selects between `settle/success` and
`settle/failure(response-not-ok)`. -/
def runFetchEffect (input : Input) (result : FetchResult) : Action :=
  match result with
  | .response ok body =>
    match body with
    | some responseBody =>
      if ok then Action.settleSuccess input { responseBody := responseBody }
      else Action.settleFailure input ResolvingError.responseNotOk
    | none => Action.settleFailure input ResolvingError.networkError
  | .transportFailure => Action.settleFailure input ResolvingError.invalidResponseBody

/-- First-match lookup in a flags map. -/
def lookupFlag (flags : Flags) (key : String) : Option FlagValue :=
  (flags.find? fun entry => entry.1 == key).map Prod.snd

/-- Modelled from the spec: `combineRawFlagsWithDefaultFlags` lives in
`utils.ts`, which is not part of the given sources.  Per the spec,
`flags` is the raw flags merged with the configured default flags, raw
values winning per key; under first-match lookup semantics this is the
raw bindings in front of the default bindings. -/
def combineRawFlagsWithDefaultFlags (rawFlags : Option Flags) (defaultFlags : Flags) :
    Flags :=
  match rawFlags with
  | some raw => raw ++ defaultFlags
  | none => defaultFlags

/-- The externally visible derived view.  The `revalidate` handle of the
source flag bag is modelled separately as `revalidateHandle`. -/
structure FlagBag where
  flags : Option Flags
  rawFlags : Option Flags
  fetching : Bool
  settled : Bool
  visitorKey : Option String
deriving DecidableEq

/-- JavaScript truthiness of an optional string: the empty string is
falsy and falls through an `a || b` chain. -/
def truthyString : Option String → Option String
  | some s => if s = "" then none else some s
  | none => none

/-- The raw flags of the flag bag, from the source `useMemo` block:
`state.current?.outcome?.responseBody.flags || null`, i.e. the current
settled outcome's flags or null (a flags object is always truthy). -/
def rawFlagsOf (state : State) : Option Flags :=
  (state.current.bind Current.outcome).map fun o => o.responseBody.flags

/-- The flag bag composer, from the source `useMemo` block: `flags` gates
the merge with defaults on `rawFlags` being present; `fetching` mirrors
`pending`; `settled` requires a non-static settled current; `visitorKey`
is the first truthy of outcome visitor key, current input key, pending
input key. -/
def computeFlagBag (state : State) (defaultFlags : Flags) : FlagBag :=
  let rawFlags : Option Flags := rawFlagsOf state
  let flags := combineRawFlagsWithDefaultFlags rawFlags defaultFlags
  { flags := match rawFlags with | some _ => some flags | none => none
    rawFlags := rawFlags
    fetching := state.pending.isSome
    settled :=
      match state.current with
      | some c => !c.input.requestBody.static
      | none => false
    visitorKey :=
      match truthyString ((state.current.bind Current.outcome).bind
          fun o => o.responseBody.visitor.map Visitor.key) with
      | some k => some k
      | none =>
        match truthyString (state.current.bind fun c => c.input.requestBody.visitorKey) with
        | some k => some k
        | none => truthyString (state.pending.bind fun p => p.input.requestBody.visitorKey) }

/-! Sample values used by the witness theorems. -/

/-- A sample evaluation input. -/
def sampleInput1 : Input :=
  { endpoint := "https://happykit.dev/api/flags"
    envKey := "flags_pub_1"
    requestBody := { visitorKey := some "V1", user := none, traits := none, static := false } }

/-- A second sample input, differing from `sampleInput1` in its visitor key. -/
def sampleInput2 : Input :=
  { endpoint := "https://happykit.dev/api/flags"
    envKey := "flags_pub_1"
    requestBody := { visitorKey := some "V2", user := none, traits := none, static := false } }

/-- A sample static-mode input (as supplied by a pre-rendered path). -/
def sampleStaticInput : Input :=
  { endpoint := "https://happykit.dev/api/flags"
    envKey := "flags_pub_1"
    requestBody := { visitorKey := none, user := none, traits := none, static := true } }

/-- A sample response body carrying a server-assigned visitor key. -/
def sampleBody1 : EvaluationResponseBody :=
  { flags := [("size", FlagValue.strVal "small")], visitor := some { key := "k1" } }

/-- A sample successful outcome. -/
def sampleOutcome1 : Outcome := { responseBody := sampleBody1 }

/-- The empty store: empty cache, no cookie written. -/
def emptyStore : Store := { cache := ⟨[]⟩, cookie := none }

/-- The initial reducer state: nothing settled, nothing pending. -/
def emptyState : State := { current := none, pending := none }

/-! Helper lemmas. -/

/-- Deep equality is reflexive. -/
theorem deepEqual_self (a : Input) : deepEqual a a = true := by
  simp [deepEqual]

/-- Writing an outcome for an input makes the cache report it for that
input. -/
theorem cache_get_set_self (c : Cache) (i : Input) (o : Outcome) :
    Cache.get (Cache.set c i o) i = some o := by
  simp [Cache.get, Cache.set, List.find?, deepEqual]

/-- First-match lookup distributes over appended flag maps: the front
map wins per key. -/
theorem lookupFlag_append (a b : Flags) (key : String) :
    lookupFlag (a ++ b) key =
      (lookupFlag a key).orElse fun _ => lookupFlag b key := by
  induction a with
  | nil => simp [lookupFlag]
  | cons hd tl ih =>
    by_cases h : hd.1 = key
    · simp [lookupFlag, List.find?, h]
    · have hb : (hd.1 == key) = false := by simp [h]
      simpa [lookupFlag, List.find?, hb] using ih

/-! Claim theorems. -/

/-- C1: when a pending entry exists, settling (success or failure) with
an input that is not deep-equal to the pending input is a no-op: state,
effects, cache and cookie are all unchanged. -/
theorem stale_settle_is_noop (store : Store) (state : State) (effects : List Effect)
    (p : Pending) (input : Input) (outcome : Outcome) (error : ResolvingError)
    (hp : state.pending = some p) (hne : deepEqual input p.input = false) :
    reducer store (state, effects) (Action.settleSuccess input outcome) =
      (store, state, effects) ∧
    reducer store (state, effects) (Action.settleFailure input error) =
      (store, state, effects) := by
  constructor <;> simp [reducer, deepEqualOpt, hp, hne]

/-- Witness for C1: with `sampleInput2` pending, settling with
`sampleInput1` changes nothing. -/
theorem stale_settle_is_noop_witness :
    reducer emptyStore
        ({ current := none, pending := some { input := sampleInput2, cachedOutcome := none } }, [])
        (Action.settleSuccess sampleInput1 sampleOutcome1) =
      (emptyStore,
        { current := none, pending := some { input := sampleInput2, cachedOutcome := none } },
        []) ∧
    reducer emptyStore
        ({ current := none, pending := some { input := sampleInput2, cachedOutcome := none } }, [])
        (Action.settleFailure sampleInput1 ResolvingError.networkError) =
      (emptyStore,
        { current := none, pending := some { input := sampleInput2, cachedOutcome := none } },
        []) :=
  stale_settle_is_noop emptyStore
    { current := none, pending := some { input := sampleInput2, cachedOutcome := none } }
    [] { input := sampleInput2, cachedOutcome := none } sampleInput1 sampleOutcome1
    ResolvingError.networkError rfl (by decide)

/-- C2: dispatching `evaluate(input)` and then `settle/success(input,
outcome)` with the same input makes the cache map the input to the
outcome, sets `current = { input, outcome }`, clears `pending`, and, when
the outcome's response body carries a (non-empty) server-assigned visitor
key, persists that key to the visitor cookie. -/
theorem evaluate_then_settle_success_updates (store : Store) (state : State)
    (effects : List Effect) (input : Input) (outcome : Outcome) :
    (reducer (reducer store (state, effects) (Action.evaluate input)).1
        (reducer store (state, effects) (Action.evaluate input)).2
        (Action.settleSuccess input outcome)).1.cache.get input = some outcome ∧
    (reducer (reducer store (state, effects) (Action.evaluate input)).1
        (reducer store (state, effects) (Action.evaluate input)).2
        (Action.settleSuccess input outcome)).2.1.current =
      some (Current.success input outcome) ∧
    (reducer (reducer store (state, effects) (Action.evaluate input)).1
        (reducer store (state, effects) (Action.evaluate input)).2
        (Action.settleSuccess input outcome)).2.1.pending = none ∧
    (∀ v, outcome.responseBody.visitor = some v → v.key ≠ "" →
      (reducer (reducer store (state, effects) (Action.evaluate input)).1
          (reducer store (state, effects) (Action.evaluate input)).2
          (Action.settleSuccess input outcome)).1.cookie =
        some (serializeVisitorKeyCookie v.key)) := by
  refine ⟨?_, ?_, ?_, ?_⟩
  · simp [reducer, deepEqualOpt, deepEqual_self, cache_get_set_self]
  · simp [reducer, deepEqualOpt, deepEqual_self]
  · simp [reducer, deepEqualOpt, deepEqual_self]
  · intro v hv hk
    simp [reducer, deepEqualOpt, deepEqual_self, hv, hk]

/-- Witness for C2: evaluating then settling `sampleInput1` with
`sampleOutcome1` caches the outcome, settles current, clears pending and
writes the `hkvk` cookie with key `k1`. -/
theorem evaluate_then_settle_success_updates_witness :
    (reducer (reducer emptyStore (emptyState, []) (Action.evaluate sampleInput1)).1
        (reducer emptyStore (emptyState, []) (Action.evaluate sampleInput1)).2
        (Action.settleSuccess sampleInput1 sampleOutcome1)).1.cache.get sampleInput1 =
      some sampleOutcome1 ∧
    (reducer (reducer emptyStore (emptyState, []) (Action.evaluate sampleInput1)).1
        (reducer emptyStore (emptyState, []) (Action.evaluate sampleInput1)).2
        (Action.settleSuccess sampleInput1 sampleOutcome1)).2.1.current =
      some (Current.success sampleInput1 sampleOutcome1) ∧
    (reducer (reducer emptyStore (emptyState, []) (Action.evaluate sampleInput1)).1
        (reducer emptyStore (emptyState, []) (Action.evaluate sampleInput1)).2
        (Action.settleSuccess sampleInput1 sampleOutcome1)).2.1.pending = none ∧
    (reducer (reducer emptyStore (emptyState, []) (Action.evaluate sampleInput1)).1
        (reducer emptyStore (emptyState, []) (Action.evaluate sampleInput1)).2
        (Action.settleSuccess sampleInput1 sampleOutcome1)).1.cookie =
      some (serializeVisitorKeyCookie "k1") := by
  have h := evaluate_then_settle_success_updates emptyStore emptyState [] sampleInput1
    sampleOutcome1
  exact ⟨h.1, h.2.1, h.2.2.1, h.2.2.2 { key := "k1" } rfl (by decide)⟩

/-- C3: how the effect runner actually classifies fetch results, shown at
concrete inputs.  Contrary to the documented taxonomy, a transport-level
failure (the fetch promise rejects, no response arrives) is dispatched as
`settle/failure(invalid-response-body)` because it lands in the rejection
handler of the `.then`, and a response body that fails to parse is
dispatched as `settle/failure(network-error)` because the `json()`
exception falls through to the trailing `.catch`; the two success/non-ok
classifications match the documentation.  Exactly one settle action is
produced per fetch result. -/
theorem effect_runner_swaps_failure_labels :
    runFetchEffect sampleInput1 FetchResult.transportFailure =
      Action.settleFailure sampleInput1 ResolvingError.invalidResponseBody ∧
    runFetchEffect sampleInput1 (FetchResult.response true none) =
      Action.settleFailure sampleInput1 ResolvingError.networkError ∧
    runFetchEffect sampleInput1 (FetchResult.response true (some sampleBody1)) =
      Action.settleSuccess sampleInput1 { responseBody := sampleBody1 } ∧
    runFetchEffect sampleInput1 (FetchResult.response false (some sampleBody1)) =
      Action.settleFailure sampleInput1 ResolvingError.responseNotOk :=
  ⟨rfl, rfl, rfl, rfl⟩

/-- C4 counterexample: with the readiness gate explicitly false, the flag
bag's `revalidate` handle still dispatches a `revalidate` action — the
source callback dispatches unconditionally and never consults
`options.ready`, so the gate does not cover this path. -/
theorem revalidate_handle_ignores_ready_gate :
    revalidateHandle (some false) = some Action.revalidate := rfl

/-- C4 amended: when `ready` is false no `evaluate` is dispatched from a
new input and no `revalidate` is dispatched from a focus-regain event,
and an undefined `ready` counts as true; the flag bag's `revalidate`
handle, however, dispatches a `revalidate` action regardless of the
gate. -/
theorem ready_gate_blocks_evaluate_and_focus :
    (∀ input state, inputEffectDispatch input state (some false) = none) ∧
    (∀ visible, focusDispatch visible (some false) = none) ∧
    isReady none = true ∧
    (∀ ready, revalidateHandle ready = some Action.revalidate) := by
  refine ⟨?_, ?_, rfl, ?_⟩ <;> intros <;>
    simp [inputEffectDispatch, focusDispatch, isReady, revalidateHandle]

/-- C5: settling with a failure whose input deep-equals the pending input
sets `current = { input, outcome: null, error, cachedOutcome:
cache.get(input) }` (cachedOutcome null when the input was never cached),
clears `pending`, and leaves cache and cookie untouched. -/
theorem settle_failure_matching_pending (store : Store) (state : State)
    (effects : List Effect) (p : Pending) (input : Input) (error : ResolvingError)
    (hp : state.pending = some p) (heq : deepEqual input p.input = true) :
    reducer store (state, effects) (Action.settleFailure input error) =
      (store,
        { state with
            current := some (Current.failure input error (store.cache.get input)),
            pending := none },
        []) := by
  simp [reducer, deepEqualOpt, hp, heq]

/-- Witness for C5: settling `sampleInput1` with a network error while it
is pending on an empty cache yields a failure current with a null cached
outcome and no pending entry. -/
theorem settle_failure_matching_pending_witness :
    reducer emptyStore
        ({ current := none, pending := some { input := sampleInput1, cachedOutcome := none } }, [])
        (Action.settleFailure sampleInput1 ResolvingError.networkError) =
      (emptyStore,
        { current := some (Current.failure sampleInput1 ResolvingError.networkError none)
          pending := none },
        []) := by
  have h := settle_failure_matching_pending emptyStore
    { current := none, pending := some { input := sampleInput1, cachedOutcome := none } }
    [] { input := sampleInput1, cachedOutcome := none } sampleInput1
    ResolvingError.networkError rfl (deepEqual_self sampleInput1)
  simpa using h

/-- C6: in the derived flag bag, `rawFlags` is the current settled
outcome's flags or null; `flags` is null whenever `rawFlags` is null, and
otherwise equals the default flags overridden per key by the raw flags
(raw values win, defaults fill the remaining keys). -/
theorem flagbag_flags_merge_defaults (state : State) (defaultFlags : Flags) :
    (computeFlagBag state defaultFlags).rawFlags =
      (state.current.bind Current.outcome).map (fun o => o.responseBody.flags) ∧
    ((computeFlagBag state defaultFlags).rawFlags = none →
      (computeFlagBag state defaultFlags).flags = none) ∧
    (∀ raw, (computeFlagBag state defaultFlags).rawFlags = some raw →
      (computeFlagBag state defaultFlags).flags =
        some (combineRawFlagsWithDefaultFlags (some raw) defaultFlags) ∧
      ∀ key, lookupFlag (combineRawFlagsWithDefaultFlags (some raw) defaultFlags) key =
        (lookupFlag raw key).orElse fun _ => lookupFlag defaultFlags key) := by
  refine ⟨rfl, ?_, ?_⟩
  · intro hnone
    have hr : rawFlagsOf state = none := hnone
    simp [computeFlagBag, hr]
  · intro raw hraw
    have hr : rawFlagsOf state = some raw := hraw
    refine ⟨?_, ?_⟩
    · simp [computeFlagBag, hr]
    · intro key
      exact lookupFlag_append raw defaultFlags key

/-- Witness for C6: with a settled outcome whose raw flags set `size`,
and defaults setting `size` and `theme`, the merged flags take `size`
from the raw flags and `theme` from the defaults. -/
theorem flagbag_flags_merge_defaults_witness :
    (computeFlagBag
        { current := some (Current.success sampleInput1 sampleOutcome1), pending := none }
        [("size", FlagValue.strVal "large"), ("theme", FlagValue.strVal "dark")]).flags =
      some (combineRawFlagsWithDefaultFlags (some [("size", FlagValue.strVal "small")])
        [("size", FlagValue.strVal "large"), ("theme", FlagValue.strVal "dark")]) ∧
    lookupFlag (combineRawFlagsWithDefaultFlags (some [("size", FlagValue.strVal "small")])
        [("size", FlagValue.strVal "large"), ("theme", FlagValue.strVal "dark")]) "size" =
      some (FlagValue.strVal "small") ∧
    lookupFlag (combineRawFlagsWithDefaultFlags (some [("size", FlagValue.strVal "small")])
        [("size", FlagValue.strVal "large"), ("theme", FlagValue.strVal "dark")]) "theme" =
      some (FlagValue.strVal "dark") := by
  have h := flagbag_flags_merge_defaults
    { current := some (Current.success sampleInput1 sampleOutcome1), pending := none }
    [("size", FlagValue.strVal "large"), ("theme", FlagValue.strVal "dark")]
  have h2 := h.2.2 [("size", FlagValue.strVal "small")] rfl
  refine ⟨h2.1, ?_, ?_⟩
  · have := h2.2 "size"
    simpa [lookupFlag] using this
  · have := h2.2 "theme"
    simpa [lookupFlag] using this

/-- C7: the derived flag bag's `settled` field is true iff `current` is
non-null and the settled input was not static-mode (so a successfully
settled static-mode input still reads as unsettled), and `fetching` is
true iff `pending` is non-null. -/
theorem flagbag_settled_and_fetching (state : State) (defaultFlags : Flags) :
    ((computeFlagBag state defaultFlags).settled = true ↔
      ∃ c, state.current = some c ∧ c.input.requestBody.static = false) ∧
    (computeFlagBag state defaultFlags).fetching = state.pending.isSome := by
  constructor
  · cases hc : state.current with
    | none => simp [computeFlagBag, hc]
    | some c => simp [computeFlagBag, hc]
  · rfl

/-- Witness for C7: a successfully settled static-mode input leaves
`settled` false, while a settled non-static input makes it true. -/
theorem flagbag_settled_and_fetching_witness :
    (computeFlagBag
        { current := some (Current.success sampleStaticInput sampleOutcome1), pending := none }
        []).settled = false ∧
    (computeFlagBag
        { current := some (Current.success sampleInput1 sampleOutcome1), pending := none }
        []).settled = true ∧
    (computeFlagBag
        { current := some (Current.success sampleInput1 sampleOutcome1), pending := none }
        []).fetching = false := by
  have hstatic := flagbag_settled_and_fetching
    { current := some (Current.success sampleStaticInput sampleOutcome1), pending := none } []
  have hplain := flagbag_settled_and_fetching
    { current := some (Current.success sampleInput1 sampleOutcome1), pending := none } []
  refine ⟨?_, ?_, ?_⟩
  · cases hs : (computeFlagBag
        { current := some (Current.success sampleStaticInput sampleOutcome1), pending := none }
        []).settled
    · rfl
    · obtain ⟨c, hc, hstat⟩ := hstatic.1.mp hs
      cases hc
      exact absurd hstat (by decide)
  · exact hplain.1.mpr ⟨Current.success sampleInput1 sampleOutcome1, rfl, rfl⟩
  · exact hplain.2

/-- C8: dispatching `revalidate` with neither a pending nor a current
entry is a no-op (state, effects, cache and cookie unchanged); otherwise
it re-targets the latest input — the pending input if one exists, else
the current input — setting `pending = { input: latestInput,
cachedOutcome: cache.get(latestInput) }` and emitting exactly the single
effect `fetch(latestInput)`. -/
theorem revalidate_latest_input_behavior (store : Store) (state : State)
    (effects : List Effect) :
    (state.pending = none → state.current = none →
      reducer store (state, effects) Action.revalidate = (store, state, effects)) ∧
    (∀ p, state.pending = some p →
      reducer store (state, effects) Action.revalidate =
        (store,
          { state with
              pending := some { input := p.input, cachedOutcome := store.cache.get p.input } },
          [Effect.fetch p.input])) ∧
    (∀ c, state.pending = none → state.current = some c →
      reducer store (state, effects) Action.revalidate =
        (store,
          { state with
              pending := some { input := c.input, cachedOutcome := store.cache.get c.input } },
          [Effect.fetch c.input])) := by
  refine ⟨?_, ?_, ?_⟩
  · intro hp hc
    simp [reducer, hp, hc]
  · intro p hp
    simp [reducer, hp]
  · intro c hp hc
    simp [reducer, hp, hc]

/-- Witness for C8: on the empty state `revalidate` changes nothing; with
`sampleInput2` pending it re-fetches `sampleInput2`; with only a settled
`sampleInput1` it re-fetches `sampleInput1`. -/
theorem revalidate_latest_input_behavior_witness :
    reducer emptyStore (emptyState, []) Action.revalidate = (emptyStore, emptyState, []) ∧
    reducer emptyStore
        ({ current := none, pending := some { input := sampleInput2, cachedOutcome := none } }, [])
        Action.revalidate =
      (emptyStore,
        { current := none, pending := some { input := sampleInput2, cachedOutcome := none } },
        [Effect.fetch sampleInput2]) ∧
    reducer emptyStore
        ({ current := some (Current.success sampleInput1 sampleOutcome1), pending := none }, [])
        Action.revalidate =
      (emptyStore,
        { current := some (Current.success sampleInput1 sampleOutcome1)
          pending := some { input := sampleInput1, cachedOutcome := none } },
        [Effect.fetch sampleInput1]) := by
  refine ⟨(revalidate_latest_input_behavior emptyStore emptyState []).1 rfl rfl, ?_, ?_⟩
  · have h := (revalidate_latest_input_behavior emptyStore
      { current := none, pending := some { input := sampleInput2, cachedOutcome := none } }
      []).2.1 { input := sampleInput2, cachedOutcome := none } rfl
    simpa using h
  · have h := (revalidate_latest_input_behavior emptyStore
      { current := some (Current.success sampleInput1 sampleOutcome1), pending := none }
      []).2.2 (Current.success sampleInput1 sampleOutcome1) rfl rfl
    simpa [Current.input] using h

/-- C9: when no entry is pending, every settle action — success or
failure, even one whose input deep-equals the current input — is a no-op:
state, effects, cache and cookie are all unchanged. -/
theorem settle_with_no_pending_is_noop (store : Store) (state : State)
    (effects : List Effect) (input : Input) (outcome : Outcome) (error : ResolvingError)
    (hp : state.pending = none) :
    reducer store (state, effects) (Action.settleSuccess input outcome) =
      (store, state, effects) ∧
    reducer store (state, effects) (Action.settleFailure input error) =
      (store, state, effects) := by
  constructor <;> simp [reducer, deepEqualOpt, hp]

/-- Witness for C9: after `sampleInput1` has settled (pending is null), a
duplicate settle for the very same input mutates nothing. -/
theorem settle_with_no_pending_is_noop_witness :
    reducer emptyStore
        ({ current := some (Current.success sampleInput1 sampleOutcome1), pending := none }, [])
        (Action.settleSuccess sampleInput1 sampleOutcome1) =
      (emptyStore,
        { current := some (Current.success sampleInput1 sampleOutcome1), pending := none },
        []) ∧
    reducer emptyStore
        ({ current := some (Current.success sampleInput1 sampleOutcome1), pending := none }, [])
        (Action.settleFailure sampleInput1 ResolvingError.networkError) =
      (emptyStore,
        { current := some (Current.success sampleInput1 sampleOutcome1), pending := none },
        []) :=
  settle_with_no_pending_is_noop emptyStore
    { current := some (Current.success sampleInput1 sampleOutcome1), pending := none }
    [] sampleInput1 sampleOutcome1 ResolvingError.networkError rfl

/-- C10: no reducer action ever clears a non-null `current`: `evaluate`
and `revalidate` leave `current` exactly as it was, and for every action
whatsoever, once `current` is non-null it stays non-null. -/
theorem current_never_cleared (store : Store) (state : State) (effects : List Effect) :
    (∀ input, (reducer store (state, effects) (Action.evaluate input)).2.1.current =
      state.current) ∧
    ((reducer store (state, effects) Action.revalidate).2.1.current = state.current) ∧
    (∀ action, state.current.isSome = true →
      (reducer store (state, effects) action).2.1.current.isSome = true) := by
  refine ⟨fun input => rfl, ?_, ?_⟩
  · cases hp : state.pending with
    | some p => simp [reducer, hp]
    | none =>
      cases hc : state.current with
      | none => simp [reducer, hp, hc]
      | some c => simp [reducer, hp, hc]
  · intro action hcur
    cases action with
    | evaluate input => exact hcur
    | revalidate =>
      cases hp : state.pending with
      | some p => simp [reducer, hp]; exact hcur
      | none =>
        cases hc : state.current with
        | none => simp [hc] at hcur
        | some c => simp [reducer, hp, hc]
    | settleSuccess input outcome =>
      cases hm : deepEqualOpt input (state.pending.map Pending.input)
      · simpa [reducer, hm] using hcur
      · simp [reducer, hm]
    | settleFailure input error =>
      cases hm : deepEqualOpt input (state.pending.map Pending.input)
      · simpa [reducer, hm] using hcur
      · simp [reducer, hm]

/-- Witness for C10: with `sampleInput1` settled and `sampleInput2`
pending, an `evaluate`, a `revalidate` and a stale `settle/failure` all
leave `current` non-null. -/
theorem current_never_cleared_witness :
    (reducer emptyStore
        ({ current := some (Current.success sampleInput1 sampleOutcome1)
           pending := some { input := sampleInput2, cachedOutcome := none } }, [])
        (Action.evaluate sampleInput2)).2.1.current =
      some (Current.success sampleInput1 sampleOutcome1) ∧
    (reducer emptyStore
        ({ current := some (Current.success sampleInput1 sampleOutcome1)
           pending := some { input := sampleInput2, cachedOutcome := none } }, [])
        Action.revalidate).2.1.current =
      some (Current.success sampleInput1 sampleOutcome1) ∧
    (reducer emptyStore
        ({ current := some (Current.success sampleInput1 sampleOutcome1)
           pending := some { input := sampleInput2, cachedOutcome := none } }, [])
        (Action.settleFailure sampleInput1 ResolvingError.networkError)).2.1.current.isSome =
      true := by
  have h := current_never_cleared emptyStore
    { current := some (Current.success sampleInput1 sampleOutcome1)
      pending := some { input := sampleInput2, cachedOutcome := none } } []
  exact ⟨h.1 sampleInput2, h.2.1,
    h.2.2 (Action.settleFailure sampleInput1 ResolvingError.networkError) rfl⟩

end HappyKit
